import Mathlib

/-!
Verification of the financial-metrics extraction engine.

The Python analyzer (app.py, financial_analyzer.py, text_analyzer.py) is
shallowly embedded: dictionaries of optional numeric fields become structures
of `Option Rat`, Python floats become exact rationals, and operations that can
raise (`KeyError`, `AttributeError`) return `Except String`.
-/

namespace FinApp

/-- Raw fact dictionary handed to `FinancialAnalyzer` in app.py.  A field of
value `none` models a key that is absent from the Python dict; `some v` models
a key present with numeric (or string/bool) value `v`. -/
structure RawData where
  company_type : Option String := none
  revenue : Option Rat := none
  sales : Option Rat := none
  turnover : Option Rat := none
  net_interest_income : Option Rat := none
  fee_commission_income : Option Rat := none
  trading_income : Option Rat := none
  net_earned_premium : Option Rat := none
  reinsurance_recoveries : Option Rat := none
  reinsurance_commission : Option Rat := none
  operating_profit : Option Rat := none
  pbt : Option Rat := none
  pat : Option Rat := none
  tax : Option Rat := none
  interest : Option Rat := none
  interest_expense : Option Rat := none
  interest_income : Option Rat := none
  depreciation : Option Rat := none
  amortization : Option Rat := none
  impairment : Option Rat := none
  has_impairment_detail : Option Bool := none
  profit_before_minority : Option Rat := none
  minority_interest : Option Rat := none
  profit_equity_statement : Option Rat := none
  net_income : Option Rat := none
  currency : Option String := none
  period_date : Option Int := none
  series_id : Option String := none
  unit : Option String := none

/-- FinancialAnalyzer.extract_revenue (app.py lines 15-40).  Dispatch on
`company_type`; the trailing `return 0` of the Python code is reached both for
an unmatched company type and for a `general` company with no candidate
revenue field. -/
def extract_revenue (d : RawData) : Rat :=
  if d.company_type = some "general" then
    match d.revenue with
    | some v => v
    | none =>
      match d.sales with
      | some v => v
      | none =>
        match d.turnover with
        | some v => v
        | none => 0
  else if d.company_type = some "bank_nbfc" then
    d.net_interest_income.getD 0 + d.fee_commission_income.getD 0 +
      d.trading_income.getD 0
  else if d.company_type = some "insurance" then
    d.net_earned_premium.getD 0 + d.reinsurance_recoveries.getD 0 +
      d.reinsurance_commission.getD 0
  else 0

/-- FinancialAnalyzer.calculate_ebit (app.py lines 42-60).  The second and
third branches subscript `data['interest_expense']` and
`data['interest_income']` directly, which raises `KeyError` when the key is
absent; this is modelled by `Except.error`. -/
def calculate_ebit (d : RawData) : Except String Rat :=
  match d.operating_profit with
  | some v => .ok v
  | none =>
    if d.pbt.isSome && d.interest.isSome then
      match d.interest_expense with
      | none => .error "KeyError: interest_expense"
      | some ie =>
        match d.interest_income with
        | none => .error "KeyError: interest_income"
        | some ii => .ok (d.pbt.getD 0 + ie - ii)
    else if d.pat.isSome && d.tax.isSome then
      match d.interest_expense with
      | none => .error "KeyError: interest_expense"
      | some ie =>
        match d.interest_income with
        | none => .error "KeyError: interest_income"
        | some ii => .ok (d.pat.getD 0 + d.tax.getD 0 + ie - ii)
    else .ok 0

/-- FinancialAnalyzer.calculate_ebitda (app.py lines 62-78).  The method
reads and writes the instance field `self.depreciation_amortization`: the
argument `da_state` is the field's value before the call and the first
component of the result is its value after the call (the field is only
reassigned when `depreciation` or `amortization` is present; otherwise the
stored value is added to EBIT). -/
def calculate_ebitda (da_state : Rat) (d : RawData) : Except String (Rat × Rat) :=
  match calculate_ebit d with
  | .error e => .error e
  | .ok ebit =>
    let da : Rat :=
      if d.depreciation.isSome || d.amortization.isSome then
        let base := d.depreciation.getD 0 + d.amortization.getD 0
        if d.impairment.isSome && d.has_impairment_detail.getD false then
          base - d.impairment.getD 0
        else base
      else da_state
    .ok (da, ebit + da)

/-- FinancialAnalyzer.extract_net_income (app.py lines 80-97).  Cascade with
a final `return data.get('net_income', 0)`. -/
def extract_net_income (d : RawData) : Rat :=
  match d.profit_before_minority with
  | some v => v
  | none =>
    if d.pat.isSome && d.minority_interest.isSome then
      d.pat.getD 0 + d.minority_interest.getD 0
    else
      match d.profit_equity_statement with
      | some v => v
      | none => d.net_income.getD 0

/-- Instance attributes of `FinancialAnalyzer` relevant to validation.
`__init__` (app.py lines 6-13) sets revenue, ebit, ebitda, net_income,
depreciation_amortization, employees and accuracy_metrics but never sets
`valid_currencies`; the absent attribute is modelled by `none`. -/
structure Analyzer where
  valid_currencies : Option (List String) := none

/-- The analyzer as produced by `FinancialAnalyzer.__init__`. -/
def Analyzer.init : Analyzer := {}

/-- Python truthiness of `data.get(k)` for a string-valued key:
`bool(None) = False`, `bool("") = False`. -/
def truthyStr : Option String → Bool
  | some s => !s.isEmpty
  | none => false

/-- Python truthiness of `data.get('period_date')` for a numeric key:
`bool(None) = False`, `bool(0) = False`. -/
def truthyInt : Option Int → Bool
  | some n => n != 0
  | none => false

/-- The six named booleans built by `validate_data`. -/
structure Validations where
  currency_populated : Bool
  currency_valid : Bool
  period_date_populated : Bool
  period_date_valid : Bool
  series_id_populated : Bool
  unit_populated : Bool
deriving DecidableEq

/-- FinancialAnalyzer.validate_data (app.py lines 99-112).  Evaluating
`data.get('currency') in self.valid_currencies` raises `AttributeError`
whenever the attribute was never assigned, which is the state every analyzer
is in after `__init__`. -/
def validate_data (a : Analyzer) (d : RawData) : Except String Validations :=
  match a.valid_currencies with
  | none =>
    .error "AttributeError: 'FinancialAnalyzer' object has no attribute 'valid_currencies'"
  | some cs =>
    .ok
      { currency_populated := truthyStr d.currency
        currency_valid :=
          match d.currency with
          | some c => cs.contains c
          | none => false
        period_date_populated := truthyInt d.period_date
        period_date_valid :=
          decide (1990 ≤ d.period_date.getD 0 ∧ d.period_date.getD 0 ≤ 2024)
        series_id_populated := truthyStr d.series_id
        unit_populated := truthyStr d.unit }

/-- The sample_data dict from app.py's `__main__` block. -/
def sample_data : RawData :=
  { company_type := some "general"
    revenue := some 1000000
    sales := some 1000000
    operating_profit := some 150000
    depreciation := some 50000
    amortization := some 20000
    pat := some 80000
    minority_interest := some (-5000)
    currency := some "USD"
    period_date := some 2023
    series_id := some "ABC123"
    unit := some "thousands" }

end FinApp

namespace FinLLM

/-- Normalized result dictionary consumed by the validators of
financial_analyzer.py; each metric is a float or `None`. -/
structure LLMData where
  revenue : Option Rat := none
  ebit : Option Rat := none
  ebitda : Option Rat := none
  net_income : Option Rat := none
  depreciation : Option Rat := none
  amortization : Option Rat := none
  confidence_score : Option Rat := none

/-- FinancialAnalyzer._check_value_consistency (financial_analyzer.py lines
232-294): a sequence of guarded checks, each applied only when its operands
are not None; the first violated check returns False. -/
def check_value_consistency (d : LLMData) : Bool :=
  if d.revenue.isSome && d.ebit.isSome &&
      decide (d.revenue.getD 0 < d.ebit.getD 0) then false
  else if d.ebit.isSome && d.net_income.isSome &&
      decide (d.ebit.getD 0 < d.net_income.getD 0) then false
  else if d.ebitda.isSome && d.ebit.isSome &&
      decide (d.ebitda.getD 0 < d.ebit.getD 0) then false
  else if d.ebit.isSome && d.depreciation.isSome && d.amortization.isSome &&
      d.ebitda.isSome &&
      decide (|d.ebitda.getD 0 * (0.001 : Rat)| <
        |d.ebit.getD 0 + d.depreciation.getD 0 + d.amortization.getD 0 -
          d.ebitda.getD 0|) then false
  else if d.revenue.isSome && d.net_income.isSome &&
      ((decide (0 < d.revenue.getD 0) &&
          decide (d.revenue.getD 0 < d.net_income.getD 0)) ||
        (decide (d.revenue.getD 0 < 0) && decide (0 < d.net_income.getD 0)))
      then false
  else if d.revenue.isSome && d.depreciation.isSome &&
      decide (d.revenue.getD 0 < d.depreciation.getD 0) then false
  else if d.revenue.isSome && d.amortization.isSome &&
      decide (d.revenue.getD 0 < d.amortization.getD 0) then false
  else true

/-- FinancialAnalyzer._check_ebitda_consistency (financial_analyzer.py lines
296-327): when ebit, depreciation, amortization and the reported ebitda are
all present, pass iff `|calculated − reported| <= abs(reported * 0.001)`;
with any component missing the check is considered consistent. -/
def check_ebitda_consistency (d : LLMData) : Bool :=
  if d.ebit.isSome && d.depreciation.isSome && d.amortization.isSome &&
      d.ebitda.isSome then
    decide (|d.ebit.getD 0 + d.depreciation.getD 0 + d.amortization.getD 0 -
      d.ebitda.getD 0| ≤ |d.ebitda.getD 0 * (0.001 : Rat)|)
  else true

/-- The five named booleans built by `validate_financial_data`. -/
structure LLMValidations where
  has_revenue : Bool
  has_required_metrics : Bool
  confidence_sufficient : Bool
  values_consistent : Bool
  ebitda_consistent : Bool
deriving DecidableEq

/-- FinancialAnalyzer.validate_financial_data (financial_analyzer.py lines
221-230) with the validation_rules of `__init__`: min_revenue 0,
min_confidence 70, required fields revenue/ebit/net_income.
`bool(revenue and revenue > 0)` is False when revenue is None or 0. -/
def validate_financial_data (d : LLMData) : LLMValidations :=
  { has_revenue :=
      match d.revenue with
      | some r => decide (0 < r)
      | none => false
    has_required_metrics :=
      d.revenue.isSome && d.ebit.isSome && d.net_income.isSome
    confidence_sufficient := decide (70 ≤ d.confidence_score.getD 0)
    values_consistent := check_value_consistency d
    ebitda_consistent := check_ebitda_consistency d }

/-- FinancialAnalyzer._calculate_accuracy (financial_analyzer.py lines
330-363): weighted sum of four validation booleans plus the confidence term
`(confidence_score / 100) * 0.1`, clamped to [0, 1] and scaled to 100. -/
def calculate_accuracy (d : LLMData) : Rat :=
  let v := validate_financial_data d
  let score : Rat :=
    (if v.has_revenue then (0.2 : Rat) else 0) +
      (if v.has_required_metrics then (0.3 : Rat) else 0) +
      (if v.values_consistent then (0.25 : Rat) else 0) +
      (if v.ebitda_consistent then (0.15 : Rat) else 0) +
      (d.confidence_score.getD 0 / 100) * (0.1 : Rat)
  max 0 (min 1 score) * 100

/-- Accuracy formula as the spec states it (§4.5): weights applied to the
booleans of the report, the external confidence contributing
`(confidence/100) * 0.10`, the sum clamped to [0,1] and scaled by 100.
This definition follows the spec's words and is compared against
`calculate_accuracy`, which is translated from the source. -/
def spec_accuracy (hr hm vc ec : Bool) (conf : Rat) : Rat :=
  max 0 (min 1
    ((0.20 : Rat) * (if hr then 1 else 0) +
      (0.30 : Rat) * (if hm then 1 else 0) +
      (0.25 : Rat) * (if vc then 1 else 0) +
      (0.15 : Rat) * (if ec then 1 else 0) +
      (0.10 : Rat) * (conf / 100))) * 100

/-- A concrete normalized result with the three required metrics present and
consistent, no reported ebitda or D&A, and confidence 90. -/
def example_conf90 : LLMData :=
  { revenue := some 1000000
    ebit := some 150000
    net_income := some 75000
    confidence_score := some 90 }

end FinLLM

namespace TextAn

/-- A Python value reaching TextAnalyzer.normalize_number: `None`, a number
(int/float, modelled exactly as a rational), or a string. -/
inductive PyVal where
  | pynone : PyVal
  | num (q : Rat) : PyVal
  | str (s : String) : PyVal

/-- Decimal digit test, `'0' <= c <= '9'` (code points 48 to 57). -/
def isDig (c : Char) : Bool := 48 ≤ c.toNat && c.toNat ≤ 57

/-- Numeric value of a decimal digit character. -/
def digVal (c : Char) : Nat := c.toNat - 48

/-- Value of a string of decimal digits (most significant first). -/
def natVal (cs : List Char) : Nat :=
  cs.foldl (fun a c => 10 * a + digVal c) 0

/-- Whitespace characters removed by Python's `str.strip()`. -/
def isSpaceCh (c : Char) : Bool :=
  c == ' ' || c == '\t' || c == '\n' || c == '\r'

/-- Python `str.strip()`: drop leading and trailing whitespace. -/
def strip (cs : List Char) : List Char :=
  ((cs.dropWhile isSpaceCh).reverse.dropWhile isSpaceCh).reverse

/-- Model of CPython `float(str)` on the grammar this program feeds it:
an optional sign followed by decimal digits with at most one point
(with at least one digit overall); anything else is a `ValueError`,
modelled as `none`.  Exponents, inf/nan and underscores never arise from
the normalization pipeline's inputs of interest and are outside the model. -/
def pyFloatCore (cs : List Char) : Option Rat :=
  if cs.any (fun c => c == '.') then
    let intPart := cs.takeWhile (fun c => c ≠ '.')
    let fracPart := (cs.dropWhile (fun c => c ≠ '.')).tail
    if fracPart.any (fun c => c == '.') then none
    else if (intPart ++ fracPart) ≠ [] && (intPart ++ fracPart).all isDig then
      some ((natVal intPart : Rat) + (natVal fracPart : Rat) / 10 ^ fracPart.length)
    else none
  else if cs ≠ [] && cs.all isDig then some (natVal cs : Rat)
  else none

/-- Model of CPython `float(str)` including the sign. -/
def pyFloat (cs : List Char) : Option Rat :=
  match cs with
  | '-' :: rest => (pyFloatCore rest).map (fun q => -q)
  | '+' :: rest => pyFloatCore rest
  | _ => pyFloatCore cs

/-- Python `str.upper()` on a single character (ASCII range suffices for the
K/M/B suffix test; code points 97 to 122 are lowercase letters). -/
def upChar (c : Char) : Char :=
  if 97 ≤ c.toNat && c.toNat ≤ 122 then Char.ofNat (c.toNat - 32) else c

/-- TextAnalyzer.normalize_number (text_analyzer.py lines 22-49), on the
character list of the string argument: remove currency symbols, strip,
negate a parenthesized value, remove spaces, turn commas into points, then
dispatch on percent sign / magnitude suffix / plain float conversion. -/
def normalizeStr (cs0 : List Char) : Option Rat :=
  let s1 := strip (cs0.filter (fun c => !(c == '€' || c == '$' || c == '£')))
  let s2 :=
    if s1.head? == some '(' && s1.getLast? == some ')' then
      '-' :: (s1.tail.dropLast)
    else s1
  let s3 := (s2.filter (fun c => c ≠ ' ')).map (fun c => if c = ',' then '.' else c)
  if s3.any (fun c => c == '%') then
    (pyFloat (s3.filter (fun c => c ≠ '%'))).map (fun q => q / 100)
  else
    match s3.getLast? with
    | some c =>
      if upChar c == 'K' then (pyFloat s3.dropLast).map (fun q => q * 1000)
      else if upChar c == 'M' then (pyFloat s3.dropLast).map (fun q => q * 1000000)
      else if upChar c == 'B' then (pyFloat s3.dropLast).map (fun q => q * 1000000000)
      else pyFloat s3
    | none => pyFloat s3

/-- TextAnalyzer.normalize_number: `None` maps to `None`, numbers map to
their float value, strings go through the normalization pipeline, and a
failed conversion is caught and returned as `None`. -/
def normalize_number (v : PyVal) : Option Rat :=
  match v with
  | .pynone => none
  | .num q => some q
  | .str s => normalizeStr s.data

end TextAn

namespace CurRes

/-- Modelled from the spec: no CurrencyResolver exists under src/ (the spec's
§4.3 component); the resolver below follows §4.3's words — jurisdiction
override first, then a fixed ordered currency alias table with
first-match-wins case-insensitive substring matching, then a unit keyword
scan defaulting to `actuals`, with the Colombian override on the ambiguous
millions abbreviation. -/
structure CurrencyInfo where
  code : String
  unit : String
  year : Int
deriving DecidableEq

/-- True when `small` occurs at the start of `big`. -/
def leadsWith : List Char → List Char → Bool
  | [], _ => true
  | _ :: _, [] => false
  | a :: as, b :: bs => a == b && leadsWith as bs

/-- True when `needle` occurs contiguously inside `hay`. -/
def hasSub (needle : List Char) : List Char → Bool
  | [] => needle.isEmpty
  | b :: bs => leadsWith needle (b :: bs) || hasSub needle bs

/-- ASCII lowercasing of one character (code points 65 to 90 are uppercase
letters). -/
def lowChar (c : Char) : Char :=
  if 65 ≤ c.toNat && c.toNat ≤ 90 then Char.ofNat (c.toNat + 32) else c

/-- Case-insensitive substring containment on strings. -/
def containsLower (text pat : String) : Bool :=
  hasSub (pat.data.map lowChar) (text.data.map lowChar)

/-- Modelled from the spec: the fixed ordered currency alias table of §4.3
(representative entries; the spec fixes the matching policy, not the full
table contents).  The yen/yuan sign is shared, first entry in table order
winning. -/
def currencyTable : List (String × List String) :=
  [("USD", ["$", "usd", "dollar"]),
   ("EUR", ["€", "eur", "euro"]),
   ("GBP", ["£", "gbp", "pound"]),
   ("JPY", ["¥", "jpy", "yen"]),
   ("CNY", ["¥", "cny", "yuan"])]

/-- Currency lexeme scan: first table entry one of whose aliases occurs in
the text. -/
def scanCurrency (text : String) : Option String :=
  (currencyTable.find? (fun e => e.2.any (fun a => containsLower text a))).map
    (fun e => e.1)

/-- Modelled from the spec: ordered unit keyword list; `mm` is the ambiguous
abbreviation for millions that the Colombian override retargets. -/
def unitKeywords : List (String × String) :=
  [("billion", "billions"), ("million", "millions"),
   ("thousand", "thousands"), ("mm", "millions")]

/-- Latvia jurisdiction evidence: a tag among the hints or the word in the
text. -/
def latviaEvidence (text : String) (hints : List String) : Bool :=
  hints.contains "Latvia" || containsLower text "latvia"

/-- Colombian jurisdiction evidence, same shape as for Latvia. -/
def colombiaEvidence (text : String) (hints : List String) : Bool :=
  hints.contains "Colombia" || containsLower text "colombia"

/-- Modelled from the spec: §4.3 `resolve(text, jurisdictionHints, year)`.
Rule 1 (Latvia jurisdiction, year >= 2014) returns `{EUR, actuals, year}`
unconditionally, bypassing the lexeme scans; otherwise the currency scan
decides the code (unresolved when no alias matches), the unit scan decides
the unit (default `actuals`), and the Colombian override forces the
ambiguous millions abbreviation to `thousands`. -/
def resolve (text : String) (hints : List String) (year : Int) :
    Option CurrencyInfo :=
  if latviaEvidence text hints && decide (2014 ≤ year) then
    some ⟨"EUR", "actuals", year⟩
  else
    match scanCurrency text with
    | none => none
    | some code =>
      let unit :=
        match unitKeywords.find? (fun kv => containsLower text kv.1) with
        | none => "actuals"
        | some kv =>
          if kv.1 == "mm" && colombiaEvidence text hints then "thousands"
          else kv.2
      some ⟨code, unit, year⟩

end CurRes

/-! Helper lemmas shared by the claim theorems. -/

/-- Bounds of a decimal digit's code point. -/
theorem isDig_bounds {c : Char} (h : TextAn.isDig c = true) :
    48 ≤ c.toNat ∧ c.toNat ≤ 57 := by
  simpa [TextAn.isDig] using h

/-- A digit character differs from every non-digit character. -/
theorem isDig_ne {c d : Char} (h : TextAn.isDig c = true)
    (hd : TextAn.isDig d = false) : c ≠ d := by
  intro he
  subst he
  rw [h] at hd
  cases hd

/-- Mapping a function that fixes every element of a list is the identity. -/
theorem map_id_of {α : Type} (f : α → α) (l : List α)
    (h : ∀ a ∈ l, f a = a) : l.map f = l := by
  induction l with
  | nil => rfl
  | cons a t ih =>
    simp only [List.map_cons, h a (List.mem_cons_self a t)]
    rw [ih fun b hb => h b (List.mem_cons_of_mem a hb)]

/-- A predicate false on every element makes `List.any` false. -/
theorem any_eq_false_of {α : Type} {p : α → Bool} {l : List α}
    (h : ∀ a ∈ l, p a = false) : l.any p = false := by
  rw [List.any_eq_false]
  intro a ha
  simp [h a ha]

/-- dropWhile leaves a list whose head fails the predicate unchanged. -/
theorem dropWhile_cons_false {p : Char → Bool} {x : Char} {xs : List Char}
    (h : p x = false) : (x :: xs).dropWhile p = x :: xs := by
  simp [List.dropWhile, h]

/-- Clamping to [0,1] and scaling by 100 lands in [0,100]. -/
theorem clamp_mul_bounds (s : Rat) :
    0 ≤ max 0 (min 1 s) * 100 ∧ max 0 (min 1 s) * 100 ≤ 100 := by
  constructor
  · exact mul_nonneg (le_max_left 0 _) (by norm_num)
  · have h : max 0 (min 1 s) ≤ 1 := max_le (by norm_num) (min_le_left _ _)
    linarith

/-- Normalization of a parenthesized all-digit string: the currency filter,
strip, space removal and comma replacement leave it unchanged, the
parentheses turn into a leading minus sign, and float conversion yields the
negated digit value. -/
theorem paren_digits_normalize (cs : List Char) (hne : cs ≠ [])
    (hdig : cs.all TextAn.isDig = true) :
    TextAn.normalizeStr ('(' :: (cs ++ [')'])) =
      some (-(TextAn.natVal cs : Rat)) := by
  have hd : ∀ c ∈ cs, TextAn.isDig c = true := List.all_eq_true.mp hdig
  have hfil : ('(' :: (cs ++ [')'])).filter
      (fun c => !(c == '€' || c == '$' || c == '£')) = '(' :: (cs ++ [')']) := by
    rw [List.filter_eq_self]
    intro a ha
    rcases List.mem_cons.mp ha with rfl | ha
    · rfl
    rcases List.mem_append.mp ha with ha | ha
    · have h1 : a ≠ '€' := isDig_ne (hd a ha) rfl
      have h2 : a ≠ '$' := isDig_ne (hd a ha) rfl
      have h3 : a ≠ '£' := isDig_ne (hd a ha) rfl
      simp [h1, h2, h3]
    · simp only [List.mem_singleton] at ha
      subst ha
      rfl
  have hstrip : TextAn.strip ('(' :: (cs ++ [')'])) = '(' :: (cs ++ [')']) := by
    unfold TextAn.strip
    rw [dropWhile_cons_false (show TextAn.isSpaceCh '(' = false from rfl)]
    rw [show ('(' :: (cs ++ [')'])).reverse = ')' :: (cs.reverse ++ ['(']) from by
      simp]
    rw [dropWhile_cons_false (show TextAn.isSpaceCh ')' = false from rfl)]
    rw [show (')' :: (cs.reverse ++ ['('])) = ('(' :: (cs ++ [')'])).reverse from by
      simp]
    exact List.reverse_reverse _
  have hcond : ((('(' :: (cs ++ [')'])).head? == some '(') &&
      (('(' :: (cs ++ [')'])).getLast? == some ')')) = true := by
    rw [show '(' :: (cs ++ [')']) = ('(' :: cs) ++ [')'] from
      (List.cons_append _ _ _).symm, List.getLast?_concat]
    rfl
  have hfil2 : ('-' :: cs).filter (fun c => c ≠ ' ') = '-' :: cs := by
    rw [List.filter_eq_self]
    intro a ha
    rcases List.mem_cons.mp ha with rfl | ha
    · decide
    · have : a ≠ ' ' := isDig_ne (hd a ha) rfl
      simp [this]
  have hmap : ('-' :: cs).map (fun c => if c = ',' then '.' else c) = '-' :: cs := by
    apply map_id_of
    intro a ha
    rcases List.mem_cons.mp ha with rfl | ha
    · rfl
    · have : a ≠ ',' := isDig_ne (hd a ha) rfl
      simp [this]
  have hpc : ('-' :: cs).any (fun c => c == '%') = false := by
    apply any_eq_false_of
    intro a ha
    rcases List.mem_cons.mp ha with rfl | ha
    · rfl
    · rw [beq_eq_false_iff_ne]
      exact isDig_ne (hd a ha) rfl
  have hgl : ('-' :: cs).getLast? = cs.getLast? := by
    cases cs with
    | nil => exact absurd rfl hne
    | cons c0 t => exact List.getLast?_cons_cons
  have hdl : cs.getLast? = some (cs.getLast hne) :=
    List.getLast?_eq_getLast_of_ne_nil hne
  have hmem : cs.getLast hne ∈ cs := List.getLast_mem hne
  have hdigl : TextAn.isDig (cs.getLast hne) = true := hd _ hmem
  have hb := isDig_bounds hdigl
  have hup : TextAn.upChar (cs.getLast hne) = cs.getLast hne := by
    have h97 : decide (97 ≤ (cs.getLast hne).toNat) = false :=
      decide_eq_false (by omega)
    simp [TextAn.upChar, h97]
  have hkK : (TextAn.upChar (cs.getLast hne) == 'K') = false := by
    rw [hup, beq_eq_false_iff_ne]
    exact isDig_ne hdigl rfl
  have hkM : (TextAn.upChar (cs.getLast hne) == 'M') = false := by
    rw [hup, beq_eq_false_iff_ne]
    exact isDig_ne hdigl rfl
  have hkB : (TextAn.upChar (cs.getLast hne) == 'B') = false := by
    rw [hup, beq_eq_false_iff_ne]
    exact isDig_ne hdigl rfl
  have hdot : cs.any (fun c => c == '.') = false := by
    apply any_eq_false_of
    intro a ha
    rw [beq_eq_false_iff_ne]
    exact isDig_ne (hd a ha) rfl
  have hpf : TextAn.pyFloat ('-' :: cs) = some (-(TextAn.natVal cs : Rat)) := by
    show (TextAn.pyFloatCore cs).map (fun q => -q) = _
    unfold TextAn.pyFloatCore
    rw [hdot]
    simp [hne, hdig]
  simp only [TextAn.normalizeStr, hfil, hstrip, hcond, eq_self_iff_true, if_true,
    List.tail_cons, List.dropLast_concat, hfil2, hmap, hpc,
    Bool.false_eq_true, if_false, hgl, hdl, hkK, hkM, hkB]
  exact hpf

/-! Claim theorems. -/

/-- Claim C1 counterexample: for company_type "unknown" the result of
extract_revenue is the plain number 0 — the same silent zero every
fall-through branch returns — not a distinguished unresolved value as the
claim states. -/
theorem C1_extract_revenue_counterexample :
    FinApp.extract_revenue { company_type := some "unknown" } = 0 := by
  simp [FinApp.extract_revenue]

/-- Claim C1 (amended): extract_revenue dispatches on company_type: for
"general" the first present field among revenue, sales, turnover wins
(first-match, never a sum; 0 when none is present); "bank_nbfc" and
"insurance" return the specified three-term sums with absent terms treated
as 0; any other company_type — "unknown" included — returns the silent
number 0, not a distinguished unresolved value. -/
theorem C1_extract_revenue_dispatch (d : FinApp.RawData) :
    (d.company_type = some "general" →
      (∀ v, d.revenue = some v → FinApp.extract_revenue d = v) ∧
      (d.revenue = none → ∀ v, d.sales = some v → FinApp.extract_revenue d = v) ∧
      (d.revenue = none → d.sales = none → ∀ v, d.turnover = some v →
        FinApp.extract_revenue d = v) ∧
      (d.revenue = none → d.sales = none → d.turnover = none →
        FinApp.extract_revenue d = 0)) ∧
    (d.company_type = some "bank_nbfc" →
      FinApp.extract_revenue d =
        d.net_interest_income.getD 0 + d.fee_commission_income.getD 0 +
          d.trading_income.getD 0) ∧
    (d.company_type = some "insurance" →
      FinApp.extract_revenue d =
        d.net_earned_premium.getD 0 + d.reinsurance_recoveries.getD 0 +
          d.reinsurance_commission.getD 0) ∧
    (d.company_type ≠ some "general" → d.company_type ≠ some "bank_nbfc" →
      d.company_type ≠ some "insurance" → FinApp.extract_revenue d = 0) := by
  refine ⟨?_, ?_, ?_, ?_⟩
  · intro h
    refine ⟨?_, ?_, ?_, ?_⟩
    · intro v hv; simp [FinApp.extract_revenue, h, hv]
    · intro h0 v hv; simp [FinApp.extract_revenue, h, h0, hv]
    · intro h0 h1 v hv; simp [FinApp.extract_revenue, h, h0, h1, hv]
    · intro h0 h1 h2; simp [FinApp.extract_revenue, h, h0, h1, h2]
  · intro h; simp [FinApp.extract_revenue, h]
  · intro h; simp [FinApp.extract_revenue, h]
  · intro h1 h2 h3; simp [FinApp.extract_revenue, h1, h2, h3]

/-- Claim C1 witness: the dispatch theorem applied to a concrete general
company whose only candidate field is sales. -/
theorem C1_extract_revenue_witness :
    FinApp.extract_revenue { company_type := some "general", sales := some 7 } = 7 :=
  ((C1_extract_revenue_dispatch
    { company_type := some "general", sales := some 7 }).1 rfl).2.1 rfl 7 rfl

/-- Claim C2 counterexample: on an input where none of the four cascade
rules applies, extract_net_income returns the plain number 0, not an
unresolved value as the claim states. -/
theorem C2_extract_net_income_counterexample :
    FinApp.extract_net_income {} = 0 := by
  simp [FinApp.extract_net_income]

/-- Claim C2 (amended): the extract_net_income cascade is applied top-down
with the first applicable rule winning — profit_before_minority; else
pat + minority_interest when both are present; else profit_equity_statement;
else the net_income field defaulted to 0 (not an unresolved value) — and
pat=80000 with minority_interest=-5000 and no earlier-rule field yields
75000. -/
theorem C2_extract_net_income_cascade :
    (∀ d : FinApp.RawData,
      (∀ v, d.profit_before_minority = some v → FinApp.extract_net_income d = v) ∧
      (d.profit_before_minority = none → ∀ p m, d.pat = some p →
        d.minority_interest = some m → FinApp.extract_net_income d = p + m) ∧
      (d.profit_before_minority = none →
        (d.pat.isSome && d.minority_interest.isSome) = false →
        ∀ v, d.profit_equity_statement = some v →
        FinApp.extract_net_income d = v) ∧
      (d.profit_before_minority = none →
        (d.pat.isSome && d.minority_interest.isSome) = false →
        d.profit_equity_statement = none →
        FinApp.extract_net_income d = d.net_income.getD 0)) ∧
    FinApp.extract_net_income
      { pat := some 80000, minority_interest := some (-5000) } = 75000 := by
  constructor
  · intro d
    refine ⟨?_, ?_, ?_, ?_⟩
    · intro v hv; simp [FinApp.extract_net_income, hv]
    · intro h0 p m hp hm; simp [FinApp.extract_net_income, h0, hp, hm]
    · intro h0 hf v hv; simp [FinApp.extract_net_income, h0, hf, hv]
    · intro h0 hf hv; simp [FinApp.extract_net_income, h0, hf, hv]
  · norm_num [FinApp.extract_net_income]

/-- Claim C2 witness: the cascade theorem applied to a concrete input where
the first rule fires. -/
theorem C2_extract_net_income_witness :
    FinApp.extract_net_income { profit_before_minority := some 42 } = 42 :=
  (C2_extract_net_income_cascade.1 { profit_before_minority := some 42 }).1 42 rfl

/-- Claim C3 counterexample: calculate_ebitda depends on the analyzer's
stored depreciation_amortization value.  A first call leaves the stored
value at 50000; a second call on an input with neither depreciation nor
amortization then returns EBITDA 50100 although its EBIT is 100 — the
claim's "D&A = 0 and EBITDA equals EBIT exactly" fails. -/
theorem C3_calculate_ebitda_counterexample :
    FinApp.calculate_ebitda 0
        { operating_profit := some 0, depreciation := some 50000 } =
      .ok (50000, 50000) ∧
    FinApp.calculate_ebitda 50000 { operating_profit := some 100 } =
      .ok (50000, 50100) ∧
    FinApp.calculate_ebit { operating_profit := some 100 } = .ok 100 ∧
    (50100 : Rat) ≠ 100 := by
  refine ⟨?_, ?_, rfl, by norm_num⟩
  · norm_num [FinApp.calculate_ebitda, FinApp.calculate_ebit]
  · norm_num [FinApp.calculate_ebitda, FinApp.calculate_ebit]

/-- Claim C3 (amended): when depreciation or amortization is present,
calculate_ebitda returns ebit plus D&A = depreciation + amortization
(absent term 0), with impairment subtracted exactly when it is present and
has_impairment_detail is truthy; when neither is present, D&A is the
analyzer's stored depreciation_amortization value (0 on a fresh analyzer,
and only then does EBITDA equal EBIT exactly).  The concrete spec example
(operating_profit 150000, depreciation 50000, amortization 20000) yields
ebit 150000 and ebitda 220000 regardless of stored state. -/
theorem C3_calculate_ebitda_da :
    (∀ (s : Rat) (d : FinApp.RawData) (e : Rat),
      FinApp.calculate_ebit d = .ok e →
      ((d.depreciation.isSome || d.amortization.isSome) = true →
        FinApp.calculate_ebitda s d =
          .ok ((if d.impairment.isSome && d.has_impairment_detail.getD false then
                  d.depreciation.getD 0 + d.amortization.getD 0 - d.impairment.getD 0
                else d.depreciation.getD 0 + d.amortization.getD 0),
               e + (if d.impairment.isSome && d.has_impairment_detail.getD false then
                  d.depreciation.getD 0 + d.amortization.getD 0 - d.impairment.getD 0
                else d.depreciation.getD 0 + d.amortization.getD 0))) ∧
      ((d.depreciation.isSome || d.amortization.isSome) = false →
        FinApp.calculate_ebitda s d = .ok (s, e + s))) ∧
    (∀ s : Rat, FinApp.calculate_ebitda s
      { revenue := some 1000000, operating_profit := some 150000,
        depreciation := some 50000, amortization := some 20000 } =
      .ok (70000, 220000)) := by
  constructor
  · intro s d e he
    constructor
    · intro h; simp [FinApp.calculate_ebitda, he, h]
    · intro h; simp [FinApp.calculate_ebitda, he, h]
  · intro s; norm_num [FinApp.calculate_ebitda, FinApp.calculate_ebit]

/-- Claim C3 witness: the D&A theorem applied to concrete stored state 5 and
an input with neither depreciation nor amortization. -/
theorem C3_calculate_ebitda_witness :
    FinApp.calculate_ebitda 5 { pbt := some 1 } = .ok (5, 0 + 5) :=
  (C3_calculate_ebitda_da.1 5 { pbt := some 1 } 0 rfl).2 rfl

/-- Claim C4: the EBITDA reconciliation check passes iff
|(ebit + depreciation + amortization) − ebitda| <= 0.001 * |ebitda| when
ebit, depreciation, amortization and the reported ebitda are all present;
with any component absent it is vacuously true; the spec's concrete
examples (115 passes, 120 fails) hold. -/
theorem C4_ebitda_reconciliation :
    (∀ e dep am r : Rat,
      FinLLM.check_ebitda_consistency
        { ebit := some e, depreciation := some dep, amortization := some am,
          ebitda := some r } =
        decide (|e + dep + am - r| ≤ (0.001 : Rat) * |r|)) ∧
    (∀ d : FinLLM.LLMData,
      d.ebit = none ∨ d.depreciation = none ∨ d.amortization = none ∨
        d.ebitda = none →
      FinLLM.check_ebitda_consistency d = true) ∧
    FinLLM.check_ebitda_consistency
      { ebit := some 100, depreciation := some 10, amortization := some 5,
        ebitda := some 115 } = true ∧
    FinLLM.check_ebitda_consistency
      { ebit := some 100, depreciation := some 10, amortization := some 5,
        ebitda := some 120 } = false := by
  refine ⟨?_, ?_, ?_, ?_⟩
  · intro e dep am r
    have habs : |r * (0.001 : Rat)| = (0.001 : Rat) * |r| := by
      rw [abs_mul, abs_of_pos (show (0 : Rat) < 0.001 by norm_num), mul_comm]
    simp [FinLLM.check_ebitda_consistency, habs]
  · intro d h
    rcases h with h | h | h | h <;> simp [FinLLM.check_ebitda_consistency, h]
  · simp [FinLLM.check_ebitda_consistency]
    rw [show (100 : Rat) + 10 + 5 - 115 = 0 by norm_num, abs_zero]
    exact abs_nonneg ((115 : Rat) * 1e-3)
  · simp [FinLLM.check_ebitda_consistency]
    rw [show (100 : Rat) + 10 + 5 - 120 = -5 by norm_num, abs_neg,
      abs_of_pos (show (0 : Rat) < 5 by norm_num)]
    norm_num
    rw [abs_of_pos (show (0 : Rat) < 3 / 25 by norm_num)]
    norm_num

/-- Claim C4 witness: the vacuity conjunct applied to a concrete input
missing ebit. -/
theorem C4_ebitda_reconciliation_witness :
    FinLLM.check_ebitda_consistency { ebitda := some 7 } = true :=
  C4_ebitda_reconciliation.2.1 { ebitda := some 7 } (Or.inl rfl)

/-- Claim C5: the confidence-weighted accuracy equals the spec formula
clamp(0.20·[has_revenue] + 0.30·[has_required_metrics] +
0.25·[values_consistent] + 0.15·[ebitda_consistent] + 0.10·confidence/100,
0, 1) · 100; for every input it lies in [0, 100]; and with the four boolean
checks true and confidence 90 it is exactly 99. -/
theorem C5_accuracy_score :
    (∀ d : FinLLM.LLMData,
      FinLLM.calculate_accuracy d =
        FinLLM.spec_accuracy (FinLLM.validate_financial_data d).has_revenue
          (FinLLM.validate_financial_data d).has_required_metrics
          (FinLLM.validate_financial_data d).values_consistent
          (FinLLM.validate_financial_data d).ebitda_consistent
          (d.confidence_score.getD 0)) ∧
    (∀ d : FinLLM.LLMData,
      0 ≤ FinLLM.calculate_accuracy d ∧ FinLLM.calculate_accuracy d ≤ 100) ∧
    FinLLM.calculate_accuracy FinLLM.example_conf90 = 99 := by
  refine ⟨?_, ?_, ?_⟩
  · intro d
    cases h1 : (FinLLM.validate_financial_data d).has_revenue <;>
    cases h2 : (FinLLM.validate_financial_data d).has_required_metrics <;>
    cases h3 : (FinLLM.validate_financial_data d).values_consistent <;>
    cases h4 : (FinLLM.validate_financial_data d).ebitda_consistent <;>
      simp [FinLLM.calculate_accuracy, FinLLM.spec_accuracy, h1, h2, h3, h4] <;>
      ring_nf
  · intro d
    exact clamp_mul_bounds _
  · simp [FinLLM.calculate_accuracy, FinLLM.validate_financial_data,
      FinLLM.example_conf90, FinLLM.check_value_consistency,
      FinLLM.check_ebitda_consistency]
    norm_num

/-- Claim C6: validate_data never returns the six-boolean report on an
analyzer produced by the constructor — evaluating
`data.get('currency') in self.valid_currencies` raises AttributeError on
every input because __init__ never assigns valid_currencies; the module's
own sample_data triggers it too. -/
theorem C6_validate_data_raises :
    (∀ d : FinApp.RawData,
      FinApp.validate_data FinApp.Analyzer.init d =
        .error "AttributeError: 'FinancialAnalyzer' object has no attribute 'valid_currencies'") ∧
    FinApp.validate_data FinApp.Analyzer.init FinApp.sample_data =
      .error "AttributeError: 'FinancialAnalyzer' object has no attribute 'valid_currencies'" :=
  ⟨fun _ => rfl, rfl⟩

/-- Claim C7: calculate_ebit is not total — whenever pat and tax are
present but the interest fields are absent, the third cascade branch
subscripts data['interest_expense'] and raises KeyError instead of
treating the absent terms as 0. -/
theorem C7_calculate_ebit_keyerror :
    (∀ p t : Rat,
      FinApp.calculate_ebit { pat := some p, tax := some t } =
        .error "KeyError: interest_expense") ∧
    FinApp.calculate_ebit { pat := some 80000, tax := some 20000 } =
      .error "KeyError: interest_expense" :=
  ⟨fun _ _ => rfl, rfl⟩

/-- Claim C8 counterexample: two calls of calculate_ebitda on the identical
input {operating_profit: 100} return different results depending on the
stored depreciation_amortization left behind by an earlier call on a
different input — the outputs (0, 100) and (50000, 50100) differ, refuting
bit-identical purity. -/
theorem C8_purity_counterexample :
    FinApp.calculate_ebitda 0
        { operating_profit := some 0, depreciation := some 50000 } =
      .ok (50000, 50000) ∧
    FinApp.calculate_ebitda 0 { operating_profit := some 100 } = .ok (0, 100) ∧
    FinApp.calculate_ebitda 50000 { operating_profit := some 100 } =
      .ok (50000, 50100) ∧
    ((0 : Rat), (100 : Rat)) ≠ ((50000 : Rat), (50100 : Rat)) := by
  refine ⟨?_, ?_, ?_, ?_⟩
  · norm_num [FinApp.calculate_ebitda, FinApp.calculate_ebit]
  · norm_num [FinApp.calculate_ebitda, FinApp.calculate_ebit]
  · norm_num [FinApp.calculate_ebitda, FinApp.calculate_ebit]
  · norm_num [Prod.ext_iff]

/-- Claim C8 (amended): extract_revenue, calculate_ebit and
extract_net_income are functions of the input dict alone, but
calculate_ebitda both writes the analyzer's depreciation_amortization field
and reads it: its output is independent of the stored state exactly when
the input carries depreciation or amortization, and otherwise the
stored value is folded into the result, so calls on identical input agree
only when the stored field agrees. -/
theorem C8_purity :
    (∀ (s₁ s₂ : Rat) (d : FinApp.RawData),
      (d.depreciation.isSome || d.amortization.isSome) = true →
      FinApp.calculate_ebitda s₁ d = FinApp.calculate_ebitda s₂ d) ∧
    (∀ (s : Rat) (d : FinApp.RawData) (e : Rat),
      FinApp.calculate_ebit d = .ok e →
      (d.depreciation.isSome || d.amortization.isSome) = false →
      FinApp.calculate_ebitda s d = .ok (s, e + s)) := by
  constructor
  · intro s₁ s₂ d h
    cases hce : FinApp.calculate_ebit d <;>
      simp [FinApp.calculate_ebitda, hce, h]
  · intro s d e he h
    simp [FinApp.calculate_ebitda, he, h]

/-- Claim C8 witness: state-independence at two concrete stored values for
an input carrying depreciation. -/
theorem C8_purity_witness :
    FinApp.calculate_ebitda 3 { depreciation := some 2 } =
      FinApp.calculate_ebitda 4 { depreciation := some 2 } :=
  C8_purity.1 3 4 { depreciation := some 2 } rfl

/-- Claim C9: the jurisdiction override fires first — Latvia evidence with
year >= 2014 yields {EUR, actuals, year} unconditionally, bypassing the
currency lexeme scan; concretely, Latvia evidence with year 2015 yields
{EUR, actuals, 2015} although the same text carries a dollar sign that the
scan alone would resolve to {USD, millions, 2015}. -/
theorem C9_latvia_override :
    (∀ (text : String) (hints : List String) (year : Int),
      CurRes.latviaEvidence text hints = true → 2014 ≤ year →
      CurRes.resolve text hints year = some ⟨"EUR", "actuals", year⟩) ∧
    CurRes.resolve "Revenue was $500 million in Latvia" [] 2015 =
      some ⟨"EUR", "actuals", 2015⟩ ∧
    CurRes.resolve "Revenue was $500 million" [] 2015 =
      some ⟨"USD", "millions", 2015⟩ := by
  refine ⟨?_, by decide, by decide⟩
  intro t h y hl hy
  simp [CurRes.resolve, hl, hy]

/-- Claim C9 witness: the override theorem applied at the boundary year
2014 with textual Latvia evidence. -/
theorem C9_latvia_override_witness :
    CurRes.resolve "latvia" [] 2014 = some ⟨"EUR", "actuals", 2014⟩ :=
  C9_latvia_override.1 "latvia" [] 2014 (by decide) (by decide)

/-- Claim C10: normalize_number maps None to None and numbers to their
value; every parenthesized all-digit string yields the negated value; a
comma is treated as a decimal point ("1,5" gives 3/2 and "1,000" gives 1,
not 1000); and an unparsable string yields None rather than an error. -/
theorem C10_normalize_number_total :
    TextAn.normalize_number .pynone = none ∧
    (∀ q : Rat, TextAn.normalize_number (.num q) = some q) ∧
    (∀ cs : List Char, cs ≠ [] → cs.all TextAn.isDig = true →
      TextAn.normalize_number (.str ⟨'(' :: (cs ++ [')'])⟩) =
        some (-(TextAn.natVal cs : Rat))) ∧
    TextAn.normalize_number (.str "1,5") = some (3 / 2) ∧
    TextAn.normalize_number (.str "1,000") = some 1 ∧
    TextAn.normalize_number (.str "abc") = none := by
  refine ⟨rfl, fun q => rfl, ?_, ?_, ?_, rfl⟩
  · intro cs hne hdig
    show TextAn.normalizeStr ('(' :: (cs ++ [')'])) =
      some (-(TextAn.natVal cs : Rat))
    exact paren_digits_normalize cs hne hdig
  · trans (some (((1 : Nat) : Rat) + ((5 : Nat) : Rat) / 10 ^ (1 : Nat)))
    · rfl
    · norm_num
  · trans (some (((1 : Nat) : Rat) + ((0 : Nat) : Rat) / 10 ^ (3 : Nat)))
    · rfl
    · norm_num

/-- Claim C10 witness: the parenthesized-digits conjunct applied to the
concrete string "(500)". -/
theorem C10_normalize_number_witness :
    (['5', '0', '0'] ≠ ([] : List Char)) ∧
    ['5', '0', '0'].all TextAn.isDig = true ∧
    TextAn.normalize_number (.str ⟨'(' :: (['5', '0', '0'] ++ [')'])⟩) =
      some (-(TextAn.natVal ['5', '0', '0'] : Rat)) :=
  ⟨by decide, by decide,
    C10_normalize_number_total.2.2.1 ['5', '0', '0'] (by decide) (by decide)⟩
